import Mathlib

/-!
Verification development for the tarczownix firmware (src/src/main.cpp).

The program drives six relay channels on a PCF8574 expander (address 0x24),
gated by six input channels on a second PCF8574 (address 0x22), from a single
Arduino loop plus asynchronous web handlers.  This file gives a shallow
embedding of its global state and of the operations the claims are about:
the timeout watchdog (startInputTimeout, stopInputTimeout, checkInputTimeouts),
the error record (getLastError, clearLastError), the web handlers for /start,
/stop and /set-delay, the main polling loop body, the randomized dwell
computation getRandomDelay, and the Preferences-backed delay persistence
(saveRelayDelays, loadRelayDelays).

Machine integers: millis() returns a 32-bit unsigned long on the ESP32 and
esp_random() a uint32_t; the delay configuration lives in C int (32-bit)
arrays.  Unsigned wraparound and the int/unsigned conversions of C are made
explicit with helpers u32OfInt, toInt32 and usub32.
-/

/-- Electrical level of a pin.  The relays are wired active-low: LOW means
energized (ON), HIGH means de-energized (OFF).  The inputs are read through
pull-ups: LOW means triggered. -/
inductive Level where
  | LOW
  | HIGH
deriving DecidableEq

/-- The unsigned 32-bit bit pattern of a C int value, as a Nat in [0, 2^32). -/
def u32OfInt (x : Int) : Nat := (x % (2 ^ 32 : Int)).toNat

/-- Reinterpret an unsigned 32-bit bit pattern as a signed 32-bit C int
(two's complement). -/
def toInt32 (n : Nat) : Int :=
  if n % 2 ^ 32 < 2 ^ 31 then ((n % 2 ^ 32 : Nat) : Int)
  else ((n % 2 ^ 32 : Nat) : Int) - 2 ^ 32

/-- Unsigned 32-bit subtraction a - b, as computed on unsigned long values
(the arithmetic done on millis() differences). -/
def usub32 (a b : Nat) : Nat := (a % 2 ^ 32 + (2 ^ 32 - b % 2 ^ 32)) % 2 ^ 32

/-- int getRandomDelay(int relay), lines 496-505:
uint32_t randomValue = esp_random();
int range = maxDelayRelay[relay] - minDelayRelay[relay];
int delay = minDelayRelay[relay] + (randomValue % range);
The subtraction producing range wraps as 32-bit int arithmetic; in
randomValue % range the int range is converted to uint32_t and the modulo is
unsigned; in the final sum the int is converted to unsigned, the addition
wraps mod 2^32 and the result is stored back into a 32-bit int.
minD/maxD are the configured bounds for the chosen relay and randomValue is
the esp_random() sample. -/
def getRandomDelay (minD maxD : Int) (randomValue : Nat) : Int :=
  let range : Int := toInt32 (u32OfInt (maxD - minD))
  let scaled : Nat := randomValue % 2 ^ 32 % u32OfInt range
  toInt32 (u32OfInt minD + scaled)

/-- The ESP32 Preferences flash store: a namespace and a key name map to a
stored int (none when the key was never written). -/
def Prefs : Type := String → String → Option Int

/-- preferences.putInt(key, v) in namespace ns. -/
def Prefs.putInt (p : Prefs) (ns key : String) (v : Int) : Prefs :=
  fun ns' key' => if ns' = ns ∧ key' = key then some v else p ns' key'

/-- preferences.getInt(key, dflt) in namespace ns: the stored value, or the
supplied default when the key is absent. -/
def Prefs.getInt (p : Prefs) (ns key : String) (dflt : Int) : Int :=
  (p ns key).getD dflt

/-- The global state of the firmware: the commanded levels of the six relay
channels (the 0x24 PCF8574 output register, readable back by digitalRead),
the per-relay sequence flags z0..z5 and timestamps r0..r5, the timeout
watchdog bookkeeping inputTimeoutStart[6] / inputTimeoutActive[6], the last
error record, the per-relay delay bounds minDelayRelay[6] / maxDelayRelay[6],
and the Preferences flash store. -/
structure State where
  relay0 : Level
  relay1 : Level
  relay2 : Level
  relay3 : Level
  relay4 : Level
  relay5 : Level
  z0 : Bool
  z1 : Bool
  z2 : Bool
  z3 : Bool
  z4 : Bool
  z5 : Bool
  r0 : Nat
  r1 : Nat
  r2 : Nat
  r3 : Nat
  r4 : Nat
  r5 : Nat
  inputTimeoutStart0 : Nat
  inputTimeoutStart1 : Nat
  inputTimeoutStart2 : Nat
  inputTimeoutStart3 : Nat
  inputTimeoutStart4 : Nat
  inputTimeoutStart5 : Nat
  inputTimeoutActive0 : Bool
  inputTimeoutActive1 : Bool
  inputTimeoutActive2 : Bool
  inputTimeoutActive3 : Bool
  inputTimeoutActive4 : Bool
  inputTimeoutActive5 : Bool
  lastErrorMessage : String
  lastErrorTime : Nat
  minDelayRelay : Fin 6 → Int
  maxDelayRelay : Fin 6 → Int
  prefs : Prefs

/-- relays.digitalRead(i): the commanded level of relay channel i
(i ≥ 6 never occurs in the program; the last field is returned then). -/
def relayAt (s : State) (i : Nat) : Level :=
  if i = 0 then s.relay0 else if i = 1 then s.relay1 else if i = 2 then s.relay2
  else if i = 3 then s.relay3 else if i = 4 then s.relay4 else s.relay5

/-- The sequence flag z_i. -/
def zAt (s : State) (i : Nat) : Bool :=
  if i = 0 then s.z0 else if i = 1 then s.z1 else if i = 2 then s.z2
  else if i = 3 then s.z3 else if i = 4 then s.z4 else s.z5

/-- The timestamp r_i. -/
def rAt (s : State) (i : Nat) : Nat :=
  if i = 0 then s.r0 else if i = 1 then s.r1 else if i = 2 then s.r2
  else if i = 3 then s.r3 else if i = 4 then s.r4 else s.r5

/-- inputTimeoutStart[i]. -/
def timeoutStartAt (s : State) (i : Nat) : Nat :=
  if i = 0 then s.inputTimeoutStart0 else if i = 1 then s.inputTimeoutStart1
  else if i = 2 then s.inputTimeoutStart2 else if i = 3 then s.inputTimeoutStart3
  else if i = 4 then s.inputTimeoutStart4 else s.inputTimeoutStart5

/-- inputTimeoutActive[i]. -/
def timeoutActiveAt (s : State) (i : Nat) : Bool :=
  if i = 0 then s.inputTimeoutActive0 else if i = 1 then s.inputTimeoutActive1
  else if i = 2 then s.inputTimeoutActive2 else if i = 3 then s.inputTimeoutActive3
  else if i = 4 then s.inputTimeoutActive4 else s.inputTimeoutActive5

/-- void startInputTimeout(int relayNumber), lines 54-58: record millis()
(the now argument) into inputTimeoutStart and arm the monitoring flag. -/
def startInputTimeout (relayNumber : Nat) (now : Nat) (s : State) : State :=
  if relayNumber = 0 then { s with inputTimeoutStart0 := now, inputTimeoutActive0 := true }
  else if relayNumber = 1 then { s with inputTimeoutStart1 := now, inputTimeoutActive1 := true }
  else if relayNumber = 2 then { s with inputTimeoutStart2 := now, inputTimeoutActive2 := true }
  else if relayNumber = 3 then { s with inputTimeoutStart3 := now, inputTimeoutActive3 := true }
  else if relayNumber = 4 then { s with inputTimeoutStart4 := now, inputTimeoutActive4 := true }
  else { s with inputTimeoutStart5 := now, inputTimeoutActive5 := true }

/-- void stopInputTimeout(int relayNumber), lines 61-64: clear the monitoring
flag. -/
def stopInputTimeout (relayNumber : Nat) (s : State) : State :=
  if relayNumber = 0 then { s with inputTimeoutActive0 := false }
  else if relayNumber = 1 then { s with inputTimeoutActive1 := false }
  else if relayNumber = 2 then { s with inputTimeoutActive2 := false }
  else if relayNumber = 3 then { s with inputTimeoutActive3 := false }
  else if relayNumber = 4 then { s with inputTimeoutActive4 := false }
  else { s with inputTimeoutActive5 := false }

/-- The error text built at line 89: "Relay " + String(i) + " did not reach
input " + String(i) + " before one second". -/
def timeoutErrorMessage (i : Nat) : String :=
  "Relay " ++ toString i ++ " did not reach input " ++ toString i ++ " before one second"

/-- The body executed when checkInputTimeouts finds an expired timeout for
relay i (lines 74-92): all six relays are written HIGH, the sequence flags
and timestamps are reset, every monitoring flag is cleared, and the error
record is set to the message naming relay i with the current time. -/
def fireTimeout (i : Nat) (now : Nat) (s : State) : State :=
  { s with
    relay0 := Level.HIGH, relay1 := Level.HIGH, relay2 := Level.HIGH
    relay3 := Level.HIGH, relay4 := Level.HIGH, relay5 := Level.HIGH
    z0 := false, z1 := false, z2 := false, z3 := false, z4 := false, z5 := false
    r0 := 0, r1 := 0, r2 := 0, r3 := 0, r4 := 0, r5 := 0
    inputTimeoutActive0 := false, inputTimeoutActive1 := false
    inputTimeoutActive2 := false, inputTimeoutActive3 := false
    inputTimeoutActive4 := false, inputTimeoutActive5 := false
    lastErrorMessage := timeoutErrorMessage i
    lastErrorTime := now }

/-- void checkInputTimeouts(), lines 67-97.  The for loop scans i = 0..5 in
ascending order; the first i whose monitoring is active and whose elapsed
time currentTime - inputTimeoutStart[i] (unsigned 32-bit) reaches 1000 ms
fires the emergency stop, and the break exits the loop, so the scan is the
nested conditional below.  now is the millis() value read at entry. -/
def checkInputTimeouts (now : Nat) (s : State) : State :=
  if s.inputTimeoutActive0 = true ∧ 1000 ≤ usub32 now s.inputTimeoutStart0 then fireTimeout 0 now s
  else if s.inputTimeoutActive1 = true ∧ 1000 ≤ usub32 now s.inputTimeoutStart1 then fireTimeout 1 now s
  else if s.inputTimeoutActive2 = true ∧ 1000 ≤ usub32 now s.inputTimeoutStart2 then fireTimeout 2 now s
  else if s.inputTimeoutActive3 = true ∧ 1000 ≤ usub32 now s.inputTimeoutStart3 then fireTimeout 3 now s
  else if s.inputTimeoutActive4 = true ∧ 1000 ≤ usub32 now s.inputTimeoutStart4 then fireTimeout 4 now s
  else if s.inputTimeoutActive5 = true ∧ 1000 ≤ usub32 now s.inputTimeoutStart5 then fireTimeout 5 now s
  else s

/-- void clearLastError(), lines 109-112. -/
def clearLastError (s : State) : State :=
  { s with lastErrorMessage := "", lastErrorTime := 0 }

/-- The outcome of a web request handler: the state it leaves behind, the
hasError flag and the message rendered into the response page. -/
structure WebResult where
  state : State
  hasError : Bool
  message : String

/-- The /start handler, lines 301-335: if relays 0, 2 and 4 all read HIGH
(off), write them LOW (on) and start timeout monitoring for each of them
(the three millis() calls are modeled with the single timestamp now);
otherwise change nothing and report an error. -/
def startHandler (now : Nat) (s : State) : WebResult :=
  if s.relay0 = Level.HIGH ∧ s.relay2 = Level.HIGH ∧ s.relay4 = Level.HIGH then
    { state := startInputTimeout 4 now (startInputTimeout 2 now (startInputTimeout 0 now
        { s with relay0 := Level.LOW, relay2 := Level.LOW, relay4 := Level.LOW }))
      hasError := false
      message := "Relay 0, 2, and 4 are now ON" }
  else
    { state := s, hasError := true, message := "Error: One or more relays are already ON" }

/-- The state effect of the /start handler. -/
def startState (now : Nat) (s : State) : State := (startHandler now s).state

/-- The /stop handler, lines 337-357: write all six relays HIGH and reset
the sequence flags and timestamps.  (It does not touch the timeout
monitoring flags or the error record.) -/
def stopHandler (s : State) : State :=
  { s with
    relay0 := Level.HIGH, relay1 := Level.HIGH, relay2 := Level.HIGH
    relay3 := Level.HIGH, relay4 := Level.HIGH, relay5 := Level.HIGH
    z0 := false, z1 := false, z2 := false, z3 := false, z4 := false, z5 := false
    r0 := 0, r1 := 0, r2 := 0, r3 := 0, r4 := 0, r5 := 0 }

/-- void saveRelayDelays(), lines 507-515: in namespace "relayDelays", store
minDelayRelay[i] under key "minDelay" + String(i) and maxDelayRelay[i] under
"maxDelay" + String(i), for i = 0..5 in order. -/
def saveRelayDelays (s : State) : State :=
  let p0 := s.prefs.putInt "relayDelays" ("minDelay" ++ toString (0 : Nat)) (s.minDelayRelay 0)
  let p1 := p0.putInt "relayDelays" ("maxDelay" ++ toString (0 : Nat)) (s.maxDelayRelay 0)
  let p2 := p1.putInt "relayDelays" ("minDelay" ++ toString (1 : Nat)) (s.minDelayRelay 1)
  let p3 := p2.putInt "relayDelays" ("maxDelay" ++ toString (1 : Nat)) (s.maxDelayRelay 1)
  let p4 := p3.putInt "relayDelays" ("minDelay" ++ toString (2 : Nat)) (s.minDelayRelay 2)
  let p5 := p4.putInt "relayDelays" ("maxDelay" ++ toString (2 : Nat)) (s.maxDelayRelay 2)
  let p6 := p5.putInt "relayDelays" ("minDelay" ++ toString (3 : Nat)) (s.minDelayRelay 3)
  let p7 := p6.putInt "relayDelays" ("maxDelay" ++ toString (3 : Nat)) (s.maxDelayRelay 3)
  let p8 := p7.putInt "relayDelays" ("minDelay" ++ toString (4 : Nat)) (s.minDelayRelay 4)
  let p9 := p8.putInt "relayDelays" ("maxDelay" ++ toString (4 : Nat)) (s.maxDelayRelay 4)
  let p10 := p9.putInt "relayDelays" ("minDelay" ++ toString (5 : Nat)) (s.minDelayRelay 5)
  let p11 := p10.putInt "relayDelays" ("maxDelay" ++ toString (5 : Nat)) (s.maxDelayRelay 5)
  { s with prefs := p11 }

/-- void loadRelayDelays(), lines 517-525: read each per-index key back from
namespace "relayDelays", defaulting to the current in-memory value when the
key is absent.  Each array slot is written exactly once, so the sequential
loop is the pointwise assignment below. -/
def loadRelayDelays (s : State) : State :=
  { s with
    minDelayRelay := fun i =>
      s.prefs.getInt "relayDelays" ("minDelay" ++ toString i.val) (s.minDelayRelay i)
    maxDelayRelay := fun i =>
      s.prefs.getInt "relayDelays" ("maxDelay" ++ toString i.val) (s.maxDelayRelay i) }

/-- The /set-delay handler, lines 174-226.  The three parameters are present
as some values (already parsed by toInt) or absent.  Validation order as in
the source: relay index, then min ≥ 100, then max ≤ 20000, then min < max;
on success the in-memory arrays are updated and saveRelayDelays persists
them. -/
def setDelayHandler (relayP minP maxP : Option Int) (s : State) : WebResult :=
  match relayP, minP, maxP with
  | some relay, some newMinDelay, some newMaxDelay =>
    if h6 : relay < 0 ∨ 6 ≤ relay then
      { state := s, hasError := true, message := "Error: Invalid relay number" }
    else if newMinDelay < 100 then
      { state := s, hasError := true
        message := "Error: Minimum delay cannot be less than 100ms" }
    else if 20000 < newMaxDelay then
      { state := s, hasError := true
        message := "Error: Maximum delay cannot exceed 20000ms (20 seconds)" }
    else if newMaxDelay ≤ newMinDelay then
      { state := s, hasError := true
        message := "Error: Minimum delay must be less than maximum delay" }
    else
      let idx : Fin 6 := ⟨relay.toNat, by omega⟩
      let s1 := { s with
        minDelayRelay := Function.update s.minDelayRelay idx newMinDelay
        maxDelayRelay := Function.update s.maxDelayRelay idx newMaxDelay }
      { state := saveRelayDelays s1
        hasError := false
        message := "Relay " ++ toString relay ++ " delay updated: Min=" ++
          toString newMinDelay ++ "ms, Max=" ++ toString newMaxDelay ++ "ms" }
  | _, _, _ => { state := s, hasError := true, message := "Error: Missing parameters" }

/-- The values the environment supplies to one iteration of loop(): the six
raw input samples (each pin is read once per iteration), the millis() value
at each call site (tCheck at checkInputTimeouts entry, tA i at the r_i
assignment of the relay-i input block, tB i in the dwell condition of the
relay-i block, tBs i inside the startInputTimeout call of that block), and
the esp_random() sample consumed by each getRandomDelay call. -/
structure Env where
  input : Fin 6 → Level
  tCheck : Nat
  tA : Fin 6 → Nat
  tB : Fin 6 → Nat
  tBs : Fin 6 → Nat
  rand : Fin 6 → Nat

/-- Relay 0 input block, lines 397-404: when input 0 reads LOW, z0 is clear
and relay 0 is energized, clear the timeout, write relay 0 HIGH, stamp r0
and set z0. -/
def relay0InputBlock (env : Env) (s : State) : State :=
  if env.input 0 = Level.LOW ∧ s.z0 = false ∧ s.relay0 = Level.LOW then
    { stopInputTimeout 0 s with relay0 := Level.HIGH, r0 := env.tA 0, z0 := true }
  else s

/-- Relay 0 dwell block, lines 405-410: when z0 is set and the random dwell
has elapsed since r0, energize relay 1, start its timeout and clear z0. -/
def relay0DwellBlock (env : Env) (s : State) : State :=
  if s.z0 = true ∧
      u32OfInt (getRandomDelay (s.minDelayRelay 0) (s.maxDelayRelay 0) (env.rand 0)) ≤
        usub32 (env.tB 0) s.r0 then
    { startInputTimeout 1 (env.tBs 0) { s with relay1 := Level.LOW } with z0 := false }
  else s

/-- Relay 1 input block, lines 413-420. -/
def relay1InputBlock (env : Env) (s : State) : State :=
  if env.input 1 = Level.LOW ∧ s.z1 = false ∧ s.relay1 = Level.LOW then
    { stopInputTimeout 1 s with relay1 := Level.HIGH, r1 := env.tA 1, z1 := true }
  else s

/-- Relay 1 dwell block, lines 421-426: re-energizes relay 0. -/
def relay1DwellBlock (env : Env) (s : State) : State :=
  if s.z1 = true ∧
      u32OfInt (getRandomDelay (s.minDelayRelay 1) (s.maxDelayRelay 1) (env.rand 1)) ≤
        usub32 (env.tB 1) s.r1 then
    { startInputTimeout 0 (env.tBs 1) { s with relay0 := Level.LOW } with z1 := false }
  else s

/-- Relay 2 input block, lines 429-436. -/
def relay2InputBlock (env : Env) (s : State) : State :=
  if env.input 2 = Level.LOW ∧ s.z2 = false ∧ s.relay2 = Level.LOW then
    { stopInputTimeout 2 s with relay2 := Level.HIGH, r2 := env.tA 2, z2 := true }
  else s

/-- Relay 2 dwell block, lines 437-442: energizes relay 3. -/
def relay2DwellBlock (env : Env) (s : State) : State :=
  if s.z2 = true ∧
      u32OfInt (getRandomDelay (s.minDelayRelay 2) (s.maxDelayRelay 2) (env.rand 2)) ≤
        usub32 (env.tB 2) s.r2 then
    { startInputTimeout 3 (env.tBs 2) { s with relay3 := Level.LOW } with z2 := false }
  else s

/-- Relay 3 input block, lines 445-452. -/
def relay3InputBlock (env : Env) (s : State) : State :=
  if env.input 3 = Level.LOW ∧ s.z3 = false ∧ s.relay3 = Level.LOW then
    { stopInputTimeout 3 s with relay3 := Level.HIGH, r3 := env.tA 3, z3 := true }
  else s

/-- Relay 3 dwell block, lines 453-458: re-energizes relay 2. -/
def relay3DwellBlock (env : Env) (s : State) : State :=
  if s.z3 = true ∧
      u32OfInt (getRandomDelay (s.minDelayRelay 3) (s.maxDelayRelay 3) (env.rand 3)) ≤
        usub32 (env.tB 3) s.r3 then
    { startInputTimeout 2 (env.tBs 3) { s with relay2 := Level.LOW } with z3 := false }
  else s

/-- Relay 4 input block, lines 461-468. -/
def relay4InputBlock (env : Env) (s : State) : State :=
  if env.input 4 = Level.LOW ∧ s.z4 = false ∧ s.relay4 = Level.LOW then
    { stopInputTimeout 4 s with relay4 := Level.HIGH, r4 := env.tA 4, z4 := true }
  else s

/-- Relay 4 dwell block, lines 469-474: energizes relay 5. -/
def relay4DwellBlock (env : Env) (s : State) : State :=
  if s.z4 = true ∧
      u32OfInt (getRandomDelay (s.minDelayRelay 4) (s.maxDelayRelay 4) (env.rand 4)) ≤
        usub32 (env.tB 4) s.r4 then
    { startInputTimeout 5 (env.tBs 4) { s with relay5 := Level.LOW } with z4 := false }
  else s

/-- Relay 5 input block, lines 477-484. -/
def relay5InputBlock (env : Env) (s : State) : State :=
  if env.input 5 = Level.LOW ∧ s.z5 = false ∧ s.relay5 = Level.LOW then
    { stopInputTimeout 5 s with relay5 := Level.HIGH, r5 := env.tA 5, z5 := true }
  else s

/-- Relay 5 dwell block, lines 485-490: re-energizes relay 4. -/
def relay5DwellBlock (env : Env) (s : State) : State :=
  if s.z5 = true ∧
      u32OfInt (getRandomDelay (s.minDelayRelay 5) (s.maxDelayRelay 5) (env.rand 5)) ≤
        usub32 (env.tB 5) s.r5 then
    { startInputTimeout 4 (env.tBs 5) { s with relay4 := Level.LOW } with z5 := false }
  else s

/-- One iteration of void loop(), lines 392-493: checkInputTimeouts first,
then the six relay blocks in source order. -/
def loopIter (env : Env) (s : State) : State :=
  relay5DwellBlock env (relay5InputBlock env
  (relay4DwellBlock env (relay4InputBlock env
  (relay3DwellBlock env (relay3InputBlock env
  (relay2DwellBlock env (relay2InputBlock env
  (relay1DwellBlock env (relay1InputBlock env
  (relay0DwellBlock env (relay0InputBlock env
  (checkInputTimeouts env.tCheck s))))))))))))

/-- The state after setup() on a device with empty flash: all relays written
HIGH, globals at their initializers, delay arrays at their defaults
{1000, ...} / {5000, ...} (loadRelayDelays on an empty store keeps them). -/
def initState : State where
  relay0 := Level.HIGH
  relay1 := Level.HIGH
  relay2 := Level.HIGH
  relay3 := Level.HIGH
  relay4 := Level.HIGH
  relay5 := Level.HIGH
  z0 := false
  z1 := false
  z2 := false
  z3 := false
  z4 := false
  z5 := false
  r0 := 0
  r1 := 0
  r2 := 0
  r3 := 0
  r4 := 0
  r5 := 0
  inputTimeoutStart0 := 0
  inputTimeoutStart1 := 0
  inputTimeoutStart2 := 0
  inputTimeoutStart3 := 0
  inputTimeoutStart4 := 0
  inputTimeoutStart5 := 0
  inputTimeoutActive0 := false
  inputTimeoutActive1 := false
  inputTimeoutActive2 := false
  inputTimeoutActive3 := false
  inputTimeoutActive4 := false
  inputTimeoutActive5 := false
  lastErrorMessage := ""
  lastErrorTime := 0
  minDelayRelay := fun _ => 1000
  maxDelayRelay := fun _ => 5000
  prefs := fun _ _ => none

/-- A fresh boot whose flash already holds the store p: the in-memory arrays
are back at their defaults, before setup() runs loadRelayDelays. -/
def restartWith (p : Prefs) : State := { initState with prefs := p }

/-- The states reachable from setup() by interleaving loop iterations with
the /start and /stop handlers (the interleaving granularity of the async
web server: a handler runs between loop iterations). -/
inductive Reachable : State → Prop where
  | init : Reachable initState
  | iter (env : Env) {s : State} : Reachable s → Reachable (loopIter env s)
  | start (now : Nat) {s : State} : Reachable s → Reachable (startState now s)
  | stop {s : State} : Reachable s → Reachable (stopHandler s)

/-- A quiescent state: every relay commanded OFF and every sequence flag
clear (the state right after setup(), /stop, or a fired timeout). -/
def Quiescent (s : State) : Prop :=
  s.relay0 = Level.HIGH ∧ s.relay1 = Level.HIGH ∧ s.relay2 = Level.HIGH ∧
  s.relay3 = Level.HIGH ∧ s.relay4 = Level.HIGH ∧ s.relay5 = Level.HIGH ∧
  s.z0 = false ∧ s.z1 = false ∧ s.z2 = false ∧ s.z3 = false ∧ s.z4 = false ∧ s.z5 = false

/-- Reachability as in Reachable, but every /start request is issued in a
quiescent state. -/
inductive ReachableQ : State → Prop where
  | init : ReachableQ initState
  | iter (env : Env) {s : State} : ReachableQ s → ReachableQ (loopIter env s)
  | start (now : Nat) {s : State} : ReachableQ s → Quiescent s → ReachableQ (startState now s)
  | stop {s : State} : ReachableQ s → ReachableQ (stopHandler s)

/-- Safety shape of one relay pair (a = even channel, b = odd channel):
never both energized; a pending dwell flag only with both channels off; at
most one pending dwell flag. -/
def pairOK (ra rb : Level) (za zb : Bool) : Prop :=
  ¬(ra = Level.LOW ∧ rb = Level.LOW) ∧
  ((za = true ∨ zb = true) → ra = Level.HIGH ∧ rb = Level.HIGH) ∧
  ¬(za = true ∧ zb = true)

/-- The inductive safety invariant: pairOK for each of the pairs (0,1),
(2,3), (4,5). -/
def SafetyInv (s : State) : Prop :=
  pairOK s.relay0 s.relay1 s.z0 s.z1 ∧
  pairOK s.relay2 s.relay3 s.z2 s.z3 ∧
  pairOK s.relay4 s.relay5 s.z4 s.z5

/-- The mutual-exclusion property claimed for the relay pairs: at most one
channel of each pair is commanded energized (LOW). -/
def PairExcl (s : State) : Prop :=
  ¬(s.relay0 = Level.LOW ∧ s.relay1 = Level.LOW) ∧
  ¬(s.relay2 = Level.LOW ∧ s.relay3 = Level.LOW) ∧
  ¬(s.relay4 = Level.LOW ∧ s.relay5 = Level.LOW)

/-- Iteration environment of the counterexample trace, first iteration
(shortly after /start at t = 0): all inputs read LOW, millis() around 5-6 ms,
esp_random() returning 0. -/
def cexEnvA : Env where
  input := fun _ => Level.LOW
  tCheck := 5
  tA := fun _ => 5
  tB := fun _ => 6
  tBs := fun _ => 6
  rand := fun _ => 0

/-- Iteration environment of the counterexample trace, second iteration
(t around 1010 ms, past the default 1000 ms minimum dwell): all inputs read
HIGH. -/
def cexEnvB : Env where
  input := fun _ => Level.HIGH
  tCheck := 1010
  tA := fun _ => 1010
  tB := fun _ => 1010
  tBs := fun _ => 1010
  rand := fun _ => 0

/-- The double-start counterexample state: /start at t = 0; an iteration at
t = 5 in which inputs 0, 2, 4 trigger (relays 0, 2, 4 are released and
z0, z2, z4 set); an iteration at t = 1010 in which the dwells elapse
(relays 1, 3, 5 are energized); then a second /start at t = 1015, whose
guard only checks relays 0, 2, 4 and passes. -/
def cexDoubleStart : State :=
  startState 1015 (loopIter cexEnvB (loopIter cexEnvA (startState 0 initState)))

/-- State with two expired timeouts at once (relays 1 and 3 both armed at
t = 0 and never triggered, checked at t = 2000). -/
def cexTwoTimeouts : State :=
  { initState with inputTimeoutActive1 := true, inputTimeoutActive3 := true }

/-- Glitch environment: a raw LOW sample on input 0 during a single loop
iteration at t = 15 (HIGH before and after), i.e. a glitch of one 10 ms poll
period, shorter than any debounce stability window. -/
def glitchEnv : Env where
  input := fun i => if i = 0 then Level.LOW else Level.HIGH
  tCheck := 15
  tA := fun _ => 15
  tB := fun _ => 16
  tBs := fun _ => 16
  rand := fun _ => 0

instance (s : State) : Decidable (Quiescent s) := by unfold Quiescent; infer_instance

instance (ra rb : Level) (za zb : Bool) : Decidable (pairOK ra rb za zb) := by
  unfold pairOK; infer_instance

instance (s : State) : Decidable (SafetyInv s) := by unfold SafetyInv; infer_instance

instance (s : State) : Decidable (PairExcl s) := by unfold PairExcl; infer_instance

/-- The composition of loop blocks 1-5 (everything after the relay 0
blocks in one loop iteration). -/
def blocks1to5 (env : Env) (t : State) : State :=
  relay5DwellBlock env (relay5InputBlock env (relay4DwellBlock env (relay4InputBlock env
    (relay3DwellBlock env (relay3InputBlock env (relay2DwellBlock env (relay2InputBlock env
    (relay1DwellBlock env (relay1InputBlock env t)))))))))

/-- Relay i has an expired, still-armed timeout at time now: the condition
scanned by checkInputTimeouts. -/
def timeoutExpired (s : State) (now i : Nat) : Prop :=
  timeoutActiveAt s i = true ∧ 1000 ≤ usub32 now (timeoutStartAt s i)

instance (s : State) (now i : Nat) : Decidable (timeoutExpired s now i) := by
  unfold timeoutExpired; infer_instance

/-! ## Preservation of the pair invariant -/

/-- An input block releasing the even channel of a pair keeps it safe. -/
theorem pairOK_offA {ra rb : Level} {za zb : Bool} (h : pairOK ra rb za zb)
    (hra : ra = Level.LOW) (hza : za = false) : pairOK Level.HIGH rb true zb := by
  cases ra <;> cases rb <;> cases za <;> cases zb <;> simp_all [pairOK]

/-- An input block releasing the odd channel of a pair keeps it safe. -/
theorem pairOK_offB {ra rb : Level} {za zb : Bool} (h : pairOK ra rb za zb)
    (hrb : rb = Level.LOW) (hzb : zb = false) : pairOK ra Level.HIGH za true := by
  cases ra <;> cases rb <;> cases za <;> cases zb <;> simp_all [pairOK]

/-- A dwell block energizing the odd channel (fired by the even flag) keeps
the pair safe. -/
theorem pairOK_onB {ra rb : Level} {za zb : Bool} (h : pairOK ra rb za zb)
    (hza : za = true) : pairOK ra Level.LOW false zb := by
  cases ra <;> cases rb <;> cases za <;> cases zb <;> simp_all [pairOK]

/-- A dwell block energizing the even channel (fired by the odd flag) keeps
the pair safe. -/
theorem pairOK_onA {ra rb : Level} {za zb : Bool} (h : pairOK ra rb za zb)
    (hzb : zb = true) : pairOK Level.LOW rb za false := by
  cases ra <;> cases rb <;> cases za <;> cases zb <;> simp_all [pairOK]

/-- A fully released pair (both channels OFF, both flags clear) is safe. -/
theorem pairOK_quiet : pairOK Level.HIGH Level.HIGH false false := by simp [pairOK]

/-- A freshly started pair (even channel ON, odd OFF, flags clear) is safe. -/
theorem pairOK_started : pairOK Level.LOW Level.HIGH false false := by simp [pairOK]

theorem relay0InputBlock_inv (env : Env) (s : State) (h : SafetyInv s) :
    SafetyInv (relay0InputBlock env s) := by
  unfold relay0InputBlock
  split
  next hc => exact ⟨pairOK_offA h.1 hc.2.2 hc.2.1, h.2.1, h.2.2⟩
  next => exact h

theorem relay0DwellBlock_inv (env : Env) (s : State) (h : SafetyInv s) :
    SafetyInv (relay0DwellBlock env s) := by
  unfold relay0DwellBlock
  split
  next hc => exact ⟨pairOK_onB h.1 hc.1, h.2.1, h.2.2⟩
  next => exact h

theorem relay1InputBlock_inv (env : Env) (s : State) (h : SafetyInv s) :
    SafetyInv (relay1InputBlock env s) := by
  unfold relay1InputBlock
  split
  next hc => exact ⟨pairOK_offB h.1 hc.2.2 hc.2.1, h.2.1, h.2.2⟩
  next => exact h

theorem relay1DwellBlock_inv (env : Env) (s : State) (h : SafetyInv s) :
    SafetyInv (relay1DwellBlock env s) := by
  unfold relay1DwellBlock
  split
  next hc => exact ⟨pairOK_onA h.1 hc.1, h.2.1, h.2.2⟩
  next => exact h

theorem relay2InputBlock_inv (env : Env) (s : State) (h : SafetyInv s) :
    SafetyInv (relay2InputBlock env s) := by
  unfold relay2InputBlock
  split
  next hc => exact ⟨h.1, pairOK_offA h.2.1 hc.2.2 hc.2.1, h.2.2⟩
  next => exact h

theorem relay2DwellBlock_inv (env : Env) (s : State) (h : SafetyInv s) :
    SafetyInv (relay2DwellBlock env s) := by
  unfold relay2DwellBlock
  split
  next hc => exact ⟨h.1, pairOK_onB h.2.1 hc.1, h.2.2⟩
  next => exact h

theorem relay3InputBlock_inv (env : Env) (s : State) (h : SafetyInv s) :
    SafetyInv (relay3InputBlock env s) := by
  unfold relay3InputBlock
  split
  next hc => exact ⟨h.1, pairOK_offB h.2.1 hc.2.2 hc.2.1, h.2.2⟩
  next => exact h

theorem relay3DwellBlock_inv (env : Env) (s : State) (h : SafetyInv s) :
    SafetyInv (relay3DwellBlock env s) := by
  unfold relay3DwellBlock
  split
  next hc => exact ⟨h.1, pairOK_onA h.2.1 hc.1, h.2.2⟩
  next => exact h

theorem relay4InputBlock_inv (env : Env) (s : State) (h : SafetyInv s) :
    SafetyInv (relay4InputBlock env s) := by
  unfold relay4InputBlock
  split
  next hc => exact ⟨h.1, h.2.1, pairOK_offA h.2.2 hc.2.2 hc.2.1⟩
  next => exact h

theorem relay4DwellBlock_inv (env : Env) (s : State) (h : SafetyInv s) :
    SafetyInv (relay4DwellBlock env s) := by
  unfold relay4DwellBlock
  split
  next hc => exact ⟨h.1, h.2.1, pairOK_onB h.2.2 hc.1⟩
  next => exact h

theorem relay5InputBlock_inv (env : Env) (s : State) (h : SafetyInv s) :
    SafetyInv (relay5InputBlock env s) := by
  unfold relay5InputBlock
  split
  next hc => exact ⟨h.1, h.2.1, pairOK_offB h.2.2 hc.2.2 hc.2.1⟩
  next => exact h

theorem relay5DwellBlock_inv (env : Env) (s : State) (h : SafetyInv s) :
    SafetyInv (relay5DwellBlock env s) := by
  unfold relay5DwellBlock
  split
  next hc => exact ⟨h.1, h.2.1, pairOK_onA h.2.2 hc.1⟩
  next => exact h

theorem checkInputTimeouts_inv (now : Nat) (s : State) (h : SafetyInv s) :
    SafetyInv (checkInputTimeouts now s) := by
  unfold checkInputTimeouts
  repeat' split
  all_goals first
    | exact ⟨pairOK_quiet, pairOK_quiet, pairOK_quiet⟩
    | exact h

theorem loopIter_inv (env : Env) (s : State) (h : SafetyInv s) :
    SafetyInv (loopIter env s) := by
  unfold loopIter
  exact relay5DwellBlock_inv _ _ (relay5InputBlock_inv _ _
    (relay4DwellBlock_inv _ _ (relay4InputBlock_inv _ _
    (relay3DwellBlock_inv _ _ (relay3InputBlock_inv _ _
    (relay2DwellBlock_inv _ _ (relay2InputBlock_inv _ _
    (relay1DwellBlock_inv _ _ (relay1InputBlock_inv _ _
    (relay0DwellBlock_inv _ _ (relay0InputBlock_inv _ _
    (checkInputTimeouts_inv _ _ h))))))))))))

theorem stopHandler_inv (s : State) : SafetyInv (stopHandler s) :=
  ⟨pairOK_quiet, pairOK_quiet, pairOK_quiet⟩

/-- A /start issued in a quiescent state yields a safe state: the guard on
relays 0, 2, 4 passes and each pair comes up with exactly its even channel
energized and no pending flags. -/
theorem startState_quiescent_inv (now : Nat) (s : State) (hq : Quiescent s) :
    SafetyInv (startState now s) := by
  obtain ⟨h0, h1, h2, h3, h4, h5, hz0, hz1, hz2, hz3, hz4, hz5⟩ := hq
  unfold startState startHandler
  rw [if_pos ⟨h0, h2, h4⟩]
  refine ⟨?_, ?_, ?_⟩ <;> simp only [startInputTimeout] <;> norm_num
  · rw [h1, hz0, hz1]; exact pairOK_started
  · rw [h3, hz2, hz3]; exact pairOK_started
  · rw [h5, hz4, hz5]; exact pairOK_started

theorem safetyInv_initState : SafetyInv initState := by decide

/-- Every state reachable with quiescent starts satisfies the inductive
safety invariant. -/
theorem safetyInv_of_reachableQ {s : State} (h : ReachableQ s) : SafetyInv s := by
  induction h with
  | init => exact safetyInv_initState
  | iter env _ ih => exact loopIter_inv _ _ ih
  | start now _ hq _ => exact startState_quiescent_inv _ _ hq
  | stop _ ih => exact stopHandler_inv _

theorem pairExcl_of_safetyInv {s : State} (h : SafetyInv s) : PairExcl s :=
  ⟨h.1.1, h.2.1.1, h.2.2.1⟩

/-- Claim C2 (corrected).  The claim as stated — at most one channel of each
relay pair energized in every state reachable by interleaving setup, loop
iterations and the /start and /stop handlers — fails, because the /start
guard checks only relays 0, 2, 4 and ignores the odd channels and the z
flags.  The amended claim holds: the per-pair mutual exclusion is invariant
over every execution in which each /start request is issued in a quiescent
state (all six relays OFF and all sequence flags clear); in particular the
loop alone, /stop and the timeout watchdog always preserve it. -/
theorem pairExclusion_of_quiescentStarts {s : State} (h : ReachableQ s) : PairExcl s :=
  pairExcl_of_safetyInv (safetyInv_of_reachableQ h)

/-- Witness for C2: the amended theorem applied to the concrete reachable
state right after a first /start from boot. -/
theorem pairExclusion_of_quiescentStarts_witness : PairExcl (startState 0 initState) :=
  pairExclusion_of_quiescentStarts (ReachableQ.start 0 ReachableQ.init (by decide))

set_option maxRecDepth 8000 in
/-- Counterexample to C2 as stated: the four-step trace /start at t = 0,
loop iteration at t = 5 with inputs 0, 2, 4 LOW, loop iteration at t = 1010
with all inputs HIGH (the dwells elapse and relays 1, 3, 5 energize), then a
second /start at t = 1015 — its guard only reads relays 0, 2, 4, which are
OFF, so it passes and energizes relay 0 while relay 1 is still energized:
both channels of pair (0,1) are commanded ON in a reachable state. -/
theorem pairExclusion_reachable_counterexample :
    Reachable cexDoubleStart ∧ ¬ PairExcl cexDoubleStart :=
  ⟨Reachable.start 1015 (Reachable.iter cexEnvB (Reachable.iter cexEnvA
      (Reachable.start 0 Reachable.init))),
    by decide⟩

/-! ## The timeout watchdog (claim C1) -/

/-- On millis() values that have not wrapped, the unsigned 32-bit difference
is the true elapsed time. -/
theorem usub32_eq_sub {a b : Nat} (hba : b ≤ a) (ha : a < 2 ^ 32) : usub32 a b = a - b := by
  unfold usub32; omega

/-- Every field consequence of a fired timeout: all relays OFF, all flags and
timestamps reset, all monitoring cleared, and the error record set. -/
theorem fireTimeout_post (i now : Nat) (s : State) :
    (∀ j < 6, relayAt (fireTimeout i now s) j = Level.HIGH) ∧
    (∀ j < 6, zAt (fireTimeout i now s) j = false) ∧
    (∀ j < 6, rAt (fireTimeout i now s) j = 0) ∧
    (∀ j < 6, timeoutActiveAt (fireTimeout i now s) j = false) ∧
    (fireTimeout i now s).lastErrorMessage = timeoutErrorMessage i ∧
    (fireTimeout i now s).lastErrorTime = now := by
  refine ⟨?_, ?_, ?_, ?_, rfl, rfl⟩ <;> intro j hj <;> interval_cases j <;> rfl

/-- Claim C1 (corrected).  If timeout monitoring is active for relay i and
at least 1000 ms (the configured timeout) have elapsed since it was armed,
one call to checkInputTimeouts performs the emergency stop: all six relays
are commanded OFF (HIGH), all sequence flags z0..z5 and timestamps r0..r5
are reset, all monitoring flags are cleared, and an error record with the
trigger-timeout message and the current time is stored.  The claim as
stated also asserted that the record names relay i itself; in fact the scan
runs in ascending index order and breaks at the first expired entry, so the
record names the least index with an expired active timeout (which is i
whenever i is the only, or the least, offender). -/
theorem checkInputTimeouts_emergencyStop (s : State) (now i : Nat) (hi : i < 6)
    (hact : timeoutActiveAt s i = true)
    (hstart : timeoutStartAt s i ≤ now) (hnow : now < 2 ^ 32)
    (helapsed : 1000 ≤ now - timeoutStartAt s i) :
    (∀ j < 6, relayAt (checkInputTimeouts now s) j = Level.HIGH) ∧
    (∀ j < 6, zAt (checkInputTimeouts now s) j = false) ∧
    (∀ j < 6, rAt (checkInputTimeouts now s) j = 0) ∧
    (∀ j < 6, timeoutActiveAt (checkInputTimeouts now s) j = false) ∧
    ∃ j, j ≤ i ∧ timeoutExpired s now j ∧
      (∀ k, k < j → ¬ timeoutExpired s now k) ∧
      (checkInputTimeouts now s).lastErrorMessage = timeoutErrorMessage j ∧
      (checkInputTimeouts now s).lastErrorTime = now := by
  have hexp : timeoutExpired s now i := by
    refine ⟨hact, ?_⟩
    rw [usub32_eq_sub hstart hnow]
    exact helapsed
  have main : ∀ j : Nat, checkInputTimeouts now s = fireTimeout j now s → j ≤ i →
      timeoutExpired s now j → (∀ k, k < j → ¬ timeoutExpired s now k) →
      (∀ j < 6, relayAt (checkInputTimeouts now s) j = Level.HIGH) ∧
      (∀ j < 6, zAt (checkInputTimeouts now s) j = false) ∧
      (∀ j < 6, rAt (checkInputTimeouts now s) j = 0) ∧
      (∀ j < 6, timeoutActiveAt (checkInputTimeouts now s) j = false) ∧
      ∃ j, j ≤ i ∧ timeoutExpired s now j ∧
        (∀ k, k < j → ¬ timeoutExpired s now k) ∧
        (checkInputTimeouts now s).lastErrorMessage = timeoutErrorMessage j ∧
        (checkInputTimeouts now s).lastErrorTime = now := by
    intro j heq hji hexpj hmin
    obtain ⟨p1, p2, p3, p4, p5, p6⟩ := fireTimeout_post j now s
    rw [heq]
    exact ⟨p1, p2, p3, p4, j, hji, hexpj, hmin, p5, p6⟩
  by_cases h0 : s.inputTimeoutActive0 = true ∧ 1000 ≤ usub32 now s.inputTimeoutStart0
  · refine main 0 ?_ (Nat.zero_le i) h0 (fun k hk => absurd hk (Nat.not_lt_zero k))
    unfold checkInputTimeouts
    rw [if_pos h0]
  · by_cases h1 : s.inputTimeoutActive1 = true ∧ 1000 ≤ usub32 now s.inputTimeoutStart1
    · have hne0 : i ≠ 0 := fun he => h0 (by rw [he] at hexp; exact hexp)
      refine main 1 ?_ (by omega) h1 ?_
      · unfold checkInputTimeouts
        rw [if_neg h0, if_pos h1]
      · intro k hk
        interval_cases k
        exact h0
    · by_cases h2 : s.inputTimeoutActive2 = true ∧ 1000 ≤ usub32 now s.inputTimeoutStart2
      · have hne0 : i ≠ 0 := fun he => h0 (by rw [he] at hexp; exact hexp)
        have hne1 : i ≠ 1 := fun he => h1 (by rw [he] at hexp; exact hexp)
        refine main 2 ?_ (by omega) h2 ?_
        · unfold checkInputTimeouts
          rw [if_neg h0, if_neg h1, if_pos h2]
        · intro k hk
          interval_cases k
          · exact h0
          · exact h1
      · by_cases h3 : s.inputTimeoutActive3 = true ∧ 1000 ≤ usub32 now s.inputTimeoutStart3
        · have hne0 : i ≠ 0 := fun he => h0 (by rw [he] at hexp; exact hexp)
          have hne1 : i ≠ 1 := fun he => h1 (by rw [he] at hexp; exact hexp)
          have hne2 : i ≠ 2 := fun he => h2 (by rw [he] at hexp; exact hexp)
          refine main 3 ?_ (by omega) h3 ?_
          · unfold checkInputTimeouts
            rw [if_neg h0, if_neg h1, if_neg h2, if_pos h3]
          · intro k hk
            interval_cases k
            · exact h0
            · exact h1
            · exact h2
        · by_cases h4 : s.inputTimeoutActive4 = true ∧ 1000 ≤ usub32 now s.inputTimeoutStart4
          · have hne0 : i ≠ 0 := fun he => h0 (by rw [he] at hexp; exact hexp)
            have hne1 : i ≠ 1 := fun he => h1 (by rw [he] at hexp; exact hexp)
            have hne2 : i ≠ 2 := fun he => h2 (by rw [he] at hexp; exact hexp)
            have hne3 : i ≠ 3 := fun he => h3 (by rw [he] at hexp; exact hexp)
            refine main 4 ?_ (by omega) h4 ?_
            · unfold checkInputTimeouts
              rw [if_neg h0, if_neg h1, if_neg h2, if_neg h3, if_pos h4]
            · intro k hk
              interval_cases k
              · exact h0
              · exact h1
              · exact h2
              · exact h3
          · have hne0 : i ≠ 0 := fun he => h0 (by rw [he] at hexp; exact hexp)
            have hne1 : i ≠ 1 := fun he => h1 (by rw [he] at hexp; exact hexp)
            have hne2 : i ≠ 2 := fun he => h2 (by rw [he] at hexp; exact hexp)
            have hne3 : i ≠ 3 := fun he => h3 (by rw [he] at hexp; exact hexp)
            have hne4 : i ≠ 4 := fun he => h4 (by rw [he] at hexp; exact hexp)
            have hi5 : i = 5 := by omega
            have h5 : s.inputTimeoutActive5 = true ∧ 1000 ≤ usub32 now s.inputTimeoutStart5 := by
              rw [hi5] at hexp; exact hexp
            refine main 5 ?_ (by omega) h5 ?_
            · unfold checkInputTimeouts
              rw [if_neg h0, if_neg h1, if_neg h2, if_neg h3, if_neg h4, if_pos h5]
            · intro k hk
              interval_cases k
              · exact h0
              · exact h1
              · exact h2
              · exact h3
              · exact h4

/-- Witness for C1: a single expired timeout for relay 0, checked at
t = 2000 with the timeout armed at t = 0. -/
theorem checkInputTimeouts_emergencyStop_witness :
    relayAt (checkInputTimeouts 2000 { initState with inputTimeoutActive0 := true }) 0 =
      Level.HIGH ∧
    zAt (checkInputTimeouts 2000 { initState with inputTimeoutActive0 := true }) 0 = false := by
  have h := checkInputTimeouts_emergencyStop { initState with inputTimeoutActive0 := true }
    2000 0 (by omega) (by decide) (by decide) (by norm_num) (by decide)
  exact ⟨h.1 0 (by omega), h.2.1 0 (by omega)⟩

/-- Counterexample to C1 as stated: with the timeouts of relays 1 and 3 both
armed at t = 0 and both expired at t = 2000, the claim instance at i = 3
requires the error record to name relay 3, but the scan breaks at relay 1
and the stored message names relay 1. -/
theorem checkInputTimeouts_leastIndex_counterexample :
    timeoutExpired cexTwoTimeouts 2000 3 ∧
    (checkInputTimeouts 2000 cexTwoTimeouts).lastErrorMessage = timeoutErrorMessage 1 ∧
    (checkInputTimeouts 2000 cexTwoTimeouts).lastErrorMessage ≠ timeoutErrorMessage 3 := by
  exact ⟨by decide, by decide, by decide⟩

/-! ## Raw-input sampling (claim C5) -/

theorem relay1InputBlock_z0r0 (env : Env) (t : State) :
    (relay1InputBlock env t).z0 = t.z0 ∧ (relay1InputBlock env t).r0 = t.r0 := by
  unfold relay1InputBlock; split <;> exact ⟨rfl, rfl⟩

theorem relay1DwellBlock_z0r0 (env : Env) (t : State) :
    (relay1DwellBlock env t).z0 = t.z0 ∧ (relay1DwellBlock env t).r0 = t.r0 := by
  unfold relay1DwellBlock; split <;> exact ⟨rfl, rfl⟩

theorem relay2InputBlock_z0r0 (env : Env) (t : State) :
    (relay2InputBlock env t).z0 = t.z0 ∧ (relay2InputBlock env t).r0 = t.r0 := by
  unfold relay2InputBlock; split <;> exact ⟨rfl, rfl⟩

theorem relay2DwellBlock_z0r0 (env : Env) (t : State) :
    (relay2DwellBlock env t).z0 = t.z0 ∧ (relay2DwellBlock env t).r0 = t.r0 := by
  unfold relay2DwellBlock; split <;> exact ⟨rfl, rfl⟩

theorem relay3InputBlock_z0r0 (env : Env) (t : State) :
    (relay3InputBlock env t).z0 = t.z0 ∧ (relay3InputBlock env t).r0 = t.r0 := by
  unfold relay3InputBlock; split <;> exact ⟨rfl, rfl⟩

theorem relay3DwellBlock_z0r0 (env : Env) (t : State) :
    (relay3DwellBlock env t).z0 = t.z0 ∧ (relay3DwellBlock env t).r0 = t.r0 := by
  unfold relay3DwellBlock; split <;> exact ⟨rfl, rfl⟩

theorem relay4InputBlock_z0r0 (env : Env) (t : State) :
    (relay4InputBlock env t).z0 = t.z0 ∧ (relay4InputBlock env t).r0 = t.r0 := by
  unfold relay4InputBlock; split <;> exact ⟨rfl, rfl⟩

theorem relay4DwellBlock_z0r0 (env : Env) (t : State) :
    (relay4DwellBlock env t).z0 = t.z0 ∧ (relay4DwellBlock env t).r0 = t.r0 := by
  unfold relay4DwellBlock; split <;> exact ⟨rfl, rfl⟩

theorem relay5InputBlock_z0r0 (env : Env) (t : State) :
    (relay5InputBlock env t).z0 = t.z0 ∧ (relay5InputBlock env t).r0 = t.r0 := by
  unfold relay5InputBlock; split <;> exact ⟨rfl, rfl⟩

theorem relay5DwellBlock_z0r0 (env : Env) (t : State) :
    (relay5DwellBlock env t).z0 = t.z0 ∧ (relay5DwellBlock env t).r0 = t.r0 := by
  unfold relay5DwellBlock; split <;> exact ⟨rfl, rfl⟩

/-- Blocks 1-5 of the loop never touch z0 or r0. -/
theorem blocks1to5_z0r0 (env : Env) (t : State) :
    (blocks1to5 env t).z0 = t.z0 ∧ (blocks1to5 env t).r0 = t.r0 := by
  unfold blocks1to5
  constructor
  · rw [(relay5DwellBlock_z0r0 _ _).1, (relay5InputBlock_z0r0 _ _).1,
      (relay4DwellBlock_z0r0 _ _).1, (relay4InputBlock_z0r0 _ _).1,
      (relay3DwellBlock_z0r0 _ _).1, (relay3InputBlock_z0r0 _ _).1,
      (relay2DwellBlock_z0r0 _ _).1, (relay2InputBlock_z0r0 _ _).1,
      (relay1DwellBlock_z0r0 _ _).1, (relay1InputBlock_z0r0 _ _).1]
  · rw [(relay5DwellBlock_z0r0 _ _).2, (relay5InputBlock_z0r0 _ _).2,
      (relay4DwellBlock_z0r0 _ _).2, (relay4InputBlock_z0r0 _ _).2,
      (relay3DwellBlock_z0r0 _ _).2, (relay3InputBlock_z0r0 _ _).2,
      (relay2DwellBlock_z0r0 _ _).2, (relay2InputBlock_z0r0 _ _).2,
      (relay1DwellBlock_z0r0 _ _).2, (relay1InputBlock_z0r0 _ _).2]

/-- Claim C5 (corrected).  The spec claims a debounce filter: the state the
control logic acts on changes at most once per stability window and a glitch
shorter than the window never causes a pair state transition.  The code has
no debounce: the loop acts on each raw sample directly.  Amended claim: a
single raw LOW sample on input 0, of any duration, observed in one loop
iteration in which z0 is clear and relay 0 is energized (and in which no
timeout fires and the dwell has not yet elapsed), immediately transitions the
pair state machine: z0 becomes true and r0 is stamped with the sample time.
(Stated for channel 0; the other five channels are copies of the same
block.) -/
theorem rawSample_transitions_immediately (s : State) (env : Env)
    (hcheck : checkInputTimeouts env.tCheck s = s)
    (hin : env.input 0 = Level.LOW) (hz : s.z0 = false) (hr : s.relay0 = Level.LOW)
    (hdwell : usub32 (env.tB 0) (env.tA 0) <
      u32OfInt (getRandomDelay (s.minDelayRelay 0) (s.maxDelayRelay 0) (env.rand 0))) :
    (loopIter env s).z0 = true ∧ (loopIter env s).r0 = env.tA 0 := by
  have h1 : relay0InputBlock env s =
      { stopInputTimeout 0 s with relay0 := Level.HIGH, r0 := env.tA 0, z0 := true } := by
    unfold relay0InputBlock
    rw [if_pos ⟨hin, hz, hr⟩]
  have h2 : relay0DwellBlock env
      { stopInputTimeout 0 s with relay0 := Level.HIGH, r0 := env.tA 0, z0 := true } =
      { stopInputTimeout 0 s with relay0 := Level.HIGH, r0 := env.tA 0, z0 := true } := by
    unfold relay0DwellBlock
    rw [if_neg]
    intro hc
    exact absurd hc.2 (Nat.not_le.mpr hdwell)
  unfold loopIter
  rw [hcheck, h1, h2]
  show (blocks1to5 env
      { stopInputTimeout 0 s with relay0 := Level.HIGH, r0 := env.tA 0, z0 := true }).z0 = true ∧
    (blocks1to5 env
      { stopInputTimeout 0 s with relay0 := Level.HIGH, r0 := env.tA 0, z0 := true }).r0 =
      env.tA 0
  constructor
  · rw [(blocks1to5_z0r0 _ _).1]
  · rw [(blocks1to5_z0r0 _ _).2]

/-- Witness for C5: the concrete glitch trace (started sequence, one LOW
sample on input 0 at t = 15). -/
theorem rawSample_transitions_immediately_witness :
    (loopIter glitchEnv (startState 0 initState)).z0 = true ∧
    (loopIter glitchEnv (startState 0 initState)).r0 = glitchEnv.tA 0 :=
  rawSample_transitions_immediately (startState 0 initState) glitchEnv rfl (by decide)
    (by decide) (by decide) (by decide)

set_option maxRecDepth 4000 in
/-- Counterexample to C5 as stated: after /start at t = 0, a single loop
iteration at t = 15 whose only LOW raw sample on input 0 lasts one 10 ms poll
period (HIGH before and after) — far shorter than the spec's 50-100 ms
stability window — changes the pair state: relay 0 is released and z0 set. -/
theorem debounce_glitch_counterexample :
    (startState 0 initState).z0 = false ∧ (startState 0 initState).relay0 = Level.LOW ∧
    (loopIter glitchEnv (startState 0 initState)).z0 = true ∧
    (loopIter glitchEnv (startState 0 initState)).relay0 = Level.HIGH := by
  exact ⟨by decide, by decide, by decide, by decide⟩

/-! ## The /stop handler and the error record (claims C6, C8) -/

/-- Claim C6 (confirmed).  One execution of the /stop handler writes HIGH
(OFF) to all six relay channels and resets every sequence flag z0..z5 to
false and every timestamp r0..r5 to 0, so afterwards every relay channel
reads OFF. -/
theorem stopHandler_allOff (s : State) :
    (stopHandler s).relay0 = Level.HIGH ∧ (stopHandler s).relay1 = Level.HIGH ∧
    (stopHandler s).relay2 = Level.HIGH ∧ (stopHandler s).relay3 = Level.HIGH ∧
    (stopHandler s).relay4 = Level.HIGH ∧ (stopHandler s).relay5 = Level.HIGH ∧
    (stopHandler s).z0 = false ∧ (stopHandler s).z1 = false ∧ (stopHandler s).z2 = false ∧
    (stopHandler s).z3 = false ∧ (stopHandler s).z4 = false ∧ (stopHandler s).z5 = false ∧
    (stopHandler s).r0 = 0 ∧ (stopHandler s).r1 = 0 ∧ (stopHandler s).r2 = 0 ∧
    (stopHandler s).r3 = 0 ∧ (stopHandler s).r4 = 0 ∧ (stopHandler s).r5 = 0 := by
  repeat' apply And.intro
  all_goals rfl

/-- Claim C8 (confirmed).  Frame conditions: /stop does not modify the
stored last-error record, and clearLastError clears exactly the error record
and modifies nothing else — every relay command, sequence flag, timestamp,
timeout-monitoring slot, delay configuration and the flash store are
unchanged. -/
theorem stop_clearError_frame (s : State) :
    (stopHandler s).lastErrorMessage = s.lastErrorMessage ∧
    (stopHandler s).lastErrorTime = s.lastErrorTime ∧
    (clearLastError s).lastErrorMessage = "" ∧
    (clearLastError s).lastErrorTime = 0 ∧
    (clearLastError s).relay0 = s.relay0 ∧ (clearLastError s).relay1 = s.relay1 ∧
    (clearLastError s).relay2 = s.relay2 ∧ (clearLastError s).relay3 = s.relay3 ∧
    (clearLastError s).relay4 = s.relay4 ∧ (clearLastError s).relay5 = s.relay5 ∧
    (clearLastError s).z0 = s.z0 ∧ (clearLastError s).z1 = s.z1 ∧
    (clearLastError s).z2 = s.z2 ∧ (clearLastError s).z3 = s.z3 ∧
    (clearLastError s).z4 = s.z4 ∧ (clearLastError s).z5 = s.z5 ∧
    (clearLastError s).r0 = s.r0 ∧ (clearLastError s).r1 = s.r1 ∧
    (clearLastError s).r2 = s.r2 ∧ (clearLastError s).r3 = s.r3 ∧
    (clearLastError s).r4 = s.r4 ∧ (clearLastError s).r5 = s.r5 ∧
    (clearLastError s).inputTimeoutStart0 = s.inputTimeoutStart0 ∧
    (clearLastError s).inputTimeoutStart1 = s.inputTimeoutStart1 ∧
    (clearLastError s).inputTimeoutStart2 = s.inputTimeoutStart2 ∧
    (clearLastError s).inputTimeoutStart3 = s.inputTimeoutStart3 ∧
    (clearLastError s).inputTimeoutStart4 = s.inputTimeoutStart4 ∧
    (clearLastError s).inputTimeoutStart5 = s.inputTimeoutStart5 ∧
    (clearLastError s).inputTimeoutActive0 = s.inputTimeoutActive0 ∧
    (clearLastError s).inputTimeoutActive1 = s.inputTimeoutActive1 ∧
    (clearLastError s).inputTimeoutActive2 = s.inputTimeoutActive2 ∧
    (clearLastError s).inputTimeoutActive3 = s.inputTimeoutActive3 ∧
    (clearLastError s).inputTimeoutActive4 = s.inputTimeoutActive4 ∧
    (clearLastError s).inputTimeoutActive5 = s.inputTimeoutActive5 ∧
    (clearLastError s).minDelayRelay = s.minDelayRelay ∧
    (clearLastError s).maxDelayRelay = s.maxDelayRelay ∧
    (clearLastError s).prefs = s.prefs := by
  repeat' apply And.intro
  all_goals rfl

/-! ## The /start handler (claim C10) -/

theorem startHandler_update1 (now : Nat) (s : State) (v : Level) :
    startHandler now { s with relay1 := v } =
      { state := { (startHandler now s).state with relay1 := v }
        hasError := (startHandler now s).hasError
        message := (startHandler now s).message } := by
  unfold startHandler
  by_cases hg : s.relay0 = Level.HIGH ∧ s.relay2 = Level.HIGH ∧ s.relay4 = Level.HIGH
  · simp only [if_pos hg]
    rfl
  · simp only [if_neg hg]

theorem startHandler_update3 (now : Nat) (s : State) (v : Level) :
    startHandler now { s with relay3 := v } =
      { state := { (startHandler now s).state with relay3 := v }
        hasError := (startHandler now s).hasError
        message := (startHandler now s).message } := by
  unfold startHandler
  by_cases hg : s.relay0 = Level.HIGH ∧ s.relay2 = Level.HIGH ∧ s.relay4 = Level.HIGH
  · simp only [if_pos hg]
    rfl
  · simp only [if_neg hg]

theorem startHandler_update5 (now : Nat) (s : State) (v : Level) :
    startHandler now { s with relay5 := v } =
      { state := { (startHandler now s).state with relay5 := v }
        hasError := (startHandler now s).hasError
        message := (startHandler now s).message } := by
  unfold startHandler
  by_cases hg : s.relay0 = Level.HIGH ∧ s.relay2 = Level.HIGH ∧ s.relay4 = Level.HIGH
  · simp only [if_pos hg]
    rfl
  · simp only [if_neg hg]

/-- Claim C10 (confirmed).  The /start handler is atomic on rejection: when
all of relays 0, 2, 4 read OFF (HIGH) it energizes exactly those three and
starts their timeout monitoring, leaving everything else unchanged; when any
of them reads ON it performs no write at all, starts no monitoring, leaves
all sequence and error state unchanged, and returns an error message.  It
never inspects or alters relays 1, 3, 5: those channels pass through
unchanged, and the handler commutes with any update of them. -/
theorem startHandler_spec (s : State) (now : Nat) :
    ((s.relay0 = Level.HIGH ∧ s.relay2 = Level.HIGH ∧ s.relay4 = Level.HIGH) →
      (startHandler now s).hasError = false ∧
      (startHandler now s).state.relay0 = Level.LOW ∧
      (startHandler now s).state.relay2 = Level.LOW ∧
      (startHandler now s).state.relay4 = Level.LOW ∧
      (startHandler now s).state.inputTimeoutActive0 = true ∧
      (startHandler now s).state.inputTimeoutActive2 = true ∧
      (startHandler now s).state.inputTimeoutActive4 = true ∧
      (startHandler now s).state.inputTimeoutStart0 = now ∧
      (startHandler now s).state.inputTimeoutStart2 = now ∧
      (startHandler now s).state.inputTimeoutStart4 = now ∧
      (startHandler now s).state.relay1 = s.relay1 ∧
      (startHandler now s).state.relay3 = s.relay3 ∧
      (startHandler now s).state.relay5 = s.relay5 ∧
      (startHandler now s).state.z0 = s.z0 ∧ (startHandler now s).state.z1 = s.z1 ∧
      (startHandler now s).state.z2 = s.z2 ∧ (startHandler now s).state.z3 = s.z3 ∧
      (startHandler now s).state.z4 = s.z4 ∧ (startHandler now s).state.z5 = s.z5 ∧
      (startHandler now s).state.r0 = s.r0 ∧ (startHandler now s).state.r1 = s.r1 ∧
      (startHandler now s).state.r2 = s.r2 ∧ (startHandler now s).state.r3 = s.r3 ∧
      (startHandler now s).state.r4 = s.r4 ∧ (startHandler now s).state.r5 = s.r5 ∧
      (startHandler now s).state.inputTimeoutActive1 = s.inputTimeoutActive1 ∧
      (startHandler now s).state.inputTimeoutActive3 = s.inputTimeoutActive3 ∧
      (startHandler now s).state.inputTimeoutActive5 = s.inputTimeoutActive5 ∧
      (startHandler now s).state.inputTimeoutStart1 = s.inputTimeoutStart1 ∧
      (startHandler now s).state.inputTimeoutStart3 = s.inputTimeoutStart3 ∧
      (startHandler now s).state.inputTimeoutStart5 = s.inputTimeoutStart5 ∧
      (startHandler now s).state.lastErrorMessage = s.lastErrorMessage ∧
      (startHandler now s).state.lastErrorTime = s.lastErrorTime ∧
      (startHandler now s).state.minDelayRelay = s.minDelayRelay ∧
      (startHandler now s).state.maxDelayRelay = s.maxDelayRelay ∧
      (startHandler now s).state.prefs = s.prefs) ∧
    (¬(s.relay0 = Level.HIGH ∧ s.relay2 = Level.HIGH ∧ s.relay4 = Level.HIGH) →
      (startHandler now s).state = s ∧ (startHandler now s).hasError = true ∧
      (startHandler now s).message = "Error: One or more relays are already ON") ∧
    (∀ v : Level,
      startHandler now { s with relay1 := v } =
        { state := { (startHandler now s).state with relay1 := v }
          hasError := (startHandler now s).hasError
          message := (startHandler now s).message } ∧
      startHandler now { s with relay3 := v } =
        { state := { (startHandler now s).state with relay3 := v }
          hasError := (startHandler now s).hasError
          message := (startHandler now s).message } ∧
      startHandler now { s with relay5 := v } =
        { state := { (startHandler now s).state with relay5 := v }
          hasError := (startHandler now s).hasError
          message := (startHandler now s).message }) := by
  refine ⟨?_, ?_, ?_⟩
  · intro hg
    unfold startHandler
    rw [if_pos hg]
    repeat' apply And.intro
    all_goals rfl
  · intro hg
    unfold startHandler
    rw [if_neg hg]
    exact ⟨rfl, rfl, rfl⟩
  · intro v
    exact ⟨startHandler_update1 now s v, startHandler_update3 now s v,
      startHandler_update5 now s v⟩

/-- Witness for C10: the handler applied at boot state (all relays OFF) at
t = 7 energizes relays 0, 2, 4 without error. -/
theorem startHandler_spec_witness :
    (startHandler 7 initState).hasError = false ∧
    (startHandler 7 initState).state.relay0 = Level.LOW ∧
    (startHandler 7 initState).state.relay1 = initState.relay1 := by
  have h := (startHandler_spec initState 7).1 (by exact ⟨rfl, rfl, rfl⟩)
  exact ⟨h.1, h.2.1, h.2.2.2.2.2.2.2.2.2.2.1⟩

/-! ## Delay configuration: validation and persistence (claims C3, C7) -/

/-- Claim C3 (confirmed).  For a request with a valid relay index i: if
min ≥ max, min < 100 or max > 20000, the request is rejected with a
validation error and the whole state — the in-memory arrays and the
persisted configuration of every relay — is unchanged; if
100 ≤ min < max ≤ 20000, both values are applied to the in-memory arrays
and persisted together under the per-index keys. -/
theorem setDelay_validation (s : State) (i : Fin 6) (mn mx : Int) :
    ((mn < 100 ∨ 20000 < mx ∨ mx ≤ mn) →
      (setDelayHandler (some (i.val : Int)) (some mn) (some mx) s).hasError = true ∧
      (setDelayHandler (some (i.val : Int)) (some mn) (some mx) s).state = s) ∧
    ((100 ≤ mn ∧ mn < mx ∧ mx ≤ 20000) →
      (setDelayHandler (some (i.val : Int)) (some mn) (some mx) s).hasError = false ∧
      (setDelayHandler (some (i.val : Int)) (some mn) (some mx) s).state.minDelayRelay i = mn ∧
      (setDelayHandler (some (i.val : Int)) (some mn) (some mx) s).state.maxDelayRelay i = mx ∧
      (setDelayHandler (some (i.val : Int)) (some mn) (some mx) s).state.prefs "relayDelays"
        ("minDelay" ++ toString i.val) = some mn ∧
      (setDelayHandler (some (i.val : Int)) (some mn) (some mx) s).state.prefs "relayDelays"
        ("maxDelay" ++ toString i.val) = some mx) := by
  constructor
  · intro hrej
    have hv : ¬((i.val : Int) < 0 ∨ 6 ≤ (i.val : Int)) := by
      have h := i.isLt
      omega
    have key : ∃ m, setDelayHandler (some (i.val : Int)) (some mn) (some mx) s =
        { state := s, hasError := true, message := m } := by
      simp only [setDelayHandler]
      rw [dif_neg hv]
      by_cases h1 : mn < 100
      · refine ⟨"Error: Minimum delay cannot be less than 100ms", ?_⟩
        rw [if_pos h1]
      · by_cases h2 : 20000 < mx
        · refine ⟨"Error: Maximum delay cannot exceed 20000ms (20 seconds)", ?_⟩
          rw [if_neg h1, if_pos h2]
        · have h3 : mx ≤ mn := by rcases hrej with h | h | h <;> omega
          refine ⟨"Error: Minimum delay must be less than maximum delay", ?_⟩
          rw [if_neg h1, if_neg h2, if_pos h3]
    obtain ⟨m, hm⟩ := key
    rw [hm]
    exact ⟨rfl, rfl⟩
  · intro ha
    obtain ⟨ha1, ha2, ha3⟩ := ha
    fin_cases i <;>
    · simp only [setDelayHandler]
      rw [dif_neg (by norm_num), if_neg (by omega), if_neg (by omega), if_neg (by omega)]
      exact ⟨rfl, rfl, rfl, rfl, rfl⟩

/-- Witness for C3: setDelay(2, 700, 3000) on the boot state is accepted and
applied. -/
theorem setDelay_validation_witness :
    (setDelayHandler (some ((2 : Fin 6).val : Int)) (some 700) (some 3000) initState).hasError =
      false ∧
    (setDelayHandler (some ((2 : Fin 6).val : Int)) (some 700) (some 3000)
      initState).state.minDelayRelay 2 = 700 := by
  have h := (setDelay_validation initState 2 700 3000).2 ⟨by norm_num, by norm_num, by norm_num⟩
  exact ⟨h.1, h.2.1⟩

/-- Claim C7 (confirmed).  Round-trip persistence: after saveRelayDelays,
a restart that resets the in-memory arrays to their defaults, and
loadRelayDelays, every relay index reads back exactly the saved (min, max)
pair, through the per-index keys minDelay<i> / maxDelay<i> of the
relayDelays namespace. -/
theorem relayDelays_roundTrip (s : State) (i : Fin 6) :
    (loadRelayDelays (restartWith (saveRelayDelays s).prefs)).minDelayRelay i =
      s.minDelayRelay i ∧
    (loadRelayDelays (restartWith (saveRelayDelays s).prefs)).maxDelayRelay i =
      s.maxDelayRelay i := by
  fin_cases i <;> exact ⟨rfl, rfl⟩

/-! ## The randomized dwell (claim C4) -/

theorem u32OfInt_emod (x : Int) : (u32OfInt x : Int) = x % 2 ^ 32 := by
  unfold u32OfInt
  rw [Int.toNat_of_nonneg (Int.emod_nonneg _ (by norm_num))]

/-- toInt32 n is the unique int32 value congruent to n mod 2^32. -/
theorem toInt32_spec (n : Nat) (k : Int) (h1 : -2 ^ 31 ≤ k) (h2 : k < 2 ^ 31)
    (hc : (n : Int) % 2 ^ 32 = k % 2 ^ 32) : toInt32 n = k := by
  unfold toInt32
  split <;> omega

theorem u32OfInt_toInt32 (m : Nat) : u32OfInt (toInt32 m) = m % 2 ^ 32 := by
  unfold u32OfInt toInt32
  split <;> omega

/-- With int32-representable bounds and min < max, none of the C conversions
overflow and getRandomDelay computes min + (randomValue mod (max - min)). -/
theorem getRandomDelay_eq (minD maxD : Int) (rand : Nat) (h1 : -2 ^ 31 ≤ minD)
    (h2 : minD < maxD) (h3 : maxD < 2 ^ 31) :
    getRandomDelay minD maxD rand = minD + ((rand % 2 ^ 32 % (maxD - minD).toNat : Nat) : Int) := by
  have hRpos : (0 : Int) < maxD - minD := by omega
  have hRlt : maxD - minD < 2 ^ 32 := by omega
  have hA : u32OfInt (maxD - minD) = (maxD - minD).toNat := by
    unfold u32OfInt
    rw [Int.emod_eq_of_lt (by omega) (by omega)]
  have hB : u32OfInt (toInt32 ((maxD - minD).toNat)) = (maxD - minD).toNat := by
    rw [u32OfInt_toInt32, Nat.mod_eq_of_lt (by omega)]
  simp only [getRandomDelay, hA, hB]
  set scaled : Nat := rand % 2 ^ 32 % (maxD - minD).toNat with hs
  have hslt : scaled < (maxD - minD).toNat := Nat.mod_lt _ (by omega)
  apply toInt32_spec
  · omega
  · omega
  · rw [Nat.cast_add, u32OfInt_emod]
    omega

/-- m divides N + m - d exactly when N has residue d mod m (for d < m). -/
theorem dvd_add_sub_iff_mod_eq (N m d : Nat) (hm : 0 < m) (hd : d < m) :
    m ∣ N + m - d ↔ N % m = d := by
  constructor
  · rintro ⟨q, hq⟩
    rcases q with _ | q'
    · omega
    · have hmul : m * (q' + 1) = m * q' + m := by ring
      have hN : N = m * q' + d := by omega
      rw [hN, Nat.mul_add_mod]
      exact Nat.mod_eq_of_lt hd
  · intro h
    refine ⟨N / m + 1, ?_⟩
    have h2 : m * (N / m) + N % m = N := Nat.div_add_mod N m
    have h3 : m * (N / m + 1) = m * (N / m) + m := by ring
    omega

/-- The number of values below N with residue d mod m is the ceiling
count (N + m - 1 - d) / m. -/
theorem card_range_filter_mod (m d : Nat) (hm : 0 < m) (hd : d < m) (N : Nat) :
    ((Finset.range N).filter (fun r => r % m = d)).card = (N + (m - 1) - d) / m := by
  induction N with
  | zero =>
    rw [Finset.range_zero, Finset.filter_empty, Finset.card_empty,
      Nat.div_eq_of_lt (by omega)]
  | succ N ih =>
    rw [Finset.range_succ, Finset.filter_insert]
    have e : N + 1 + (m - 1) - d = (N + (m - 1) - d) + 1 := by omega
    have e2 : (N + (m - 1) - d) + 1 = N + m - d := by omega
    by_cases hN : N % m = d
    · rw [if_pos hN, Finset.card_insert_of_not_mem (by simp), ih, e, Nat.succ_div,
        if_pos (e2 ▸ (dvd_add_sub_iff_mod_eq N m d hm hd).mpr hN)]
    · rw [if_neg hN, ih, e, Nat.succ_div,
        if_neg (fun hdvd => hN ((dvd_add_sub_iff_mod_eq N m d hm hd).mp (e2 ▸ hdvd)))]
      omega

/-- How many of the 2^32 equally likely esp_random() values map to a given
dwell value v in [min, max). -/
theorem cnt_eq (minD maxD v : Int) (h1 : -2 ^ 31 ≤ minD) (h2 : minD < maxD) (h3 : maxD < 2 ^ 31)
    (hv1 : minD ≤ v) (hv2 : v < maxD) :
    ((Finset.range (2 ^ 32)).filter (fun r => getRandomDelay minD maxD r = v)).card =
      (2 ^ 32 + ((maxD - minD).toNat - 1) - (v - minD).toNat) / (maxD - minD).toNat := by
  have hfc : (Finset.range (2 ^ 32)).filter (fun r => getRandomDelay minD maxD r = v) =
      (Finset.range (2 ^ 32)).filter (fun r => r % (maxD - minD).toNat = (v - minD).toNat) := by
    apply Finset.filter_congr
    intro r hr
    simp only [Finset.mem_range] at hr
    rw [getRandomDelay_eq minD maxD r h1 h2 h3, Nat.mod_eq_of_lt hr]
    omega
  rw [hfc, card_range_filter_mod (maxD - minD).toNat (v - minD).toNat (by omega) (by omega)]

/-- Claim C4 (corrected).  Range containment holds as claimed: for any
int32-representable configuration with min < max, getRandomDelay returns d
with min ≤ d < max.  The uniformity part of the claim is false — the value
is min + (randomValue mod (max - min)), and reducing a uniform 32-bit source
mod the range is exactly uniform only when the range divides 2^32.  Amended
claim: min ≤ d < max always, and the distribution is uniform only up to
modulo bias — the preimage counts of any two values in [min, max) under the
2^32 equally likely esp_random() outcomes differ by at most 1. -/
theorem getRandomDelay_range_modBias (minD maxD : Int) (h1 : -2 ^ 31 ≤ minD) (h2 : minD < maxD)
    (h3 : maxD < 2 ^ 31) :
    (∀ rand : Nat, minD ≤ getRandomDelay minD maxD rand ∧ getRandomDelay minD maxD rand < maxD) ∧
    (∀ v w : Int, minD ≤ v → v < maxD → minD ≤ w → w < maxD →
      ((Finset.range (2 ^ 32)).filter (fun r => getRandomDelay minD maxD r = v)).card ≤
        ((Finset.range (2 ^ 32)).filter (fun r => getRandomDelay minD maxD r = w)).card + 1) := by
  constructor
  · intro rand
    rw [getRandomDelay_eq minD maxD rand h1 h2 h3]
    have hT : 0 < (maxD - minD).toNat := by omega
    have hlt := Nat.mod_lt (rand % 2 ^ 32) hT
    omega
  · intro v w hv1 hv2 hw1 hw2
    rw [cnt_eq minD maxD v h1 h2 h3 hv1 hv2, cnt_eq minD maxD w h1 h2 h3 hw1 hw2]
    have hT : 0 < (maxD - minD).toNat := by omega
    calc (2 ^ 32 + ((maxD - minD).toNat - 1) - (v - minD).toNat) / (maxD - minD).toNat
        ≤ ((2 ^ 32 + ((maxD - minD).toNat - 1) - (w - minD).toNat) + (maxD - minD).toNat) /
            (maxD - minD).toNat := Nat.div_le_div_right (by omega)
      _ = (2 ^ 32 + ((maxD - minD).toNat - 1) - (w - minD).toNat) / (maxD - minD).toNat + 1 :=
          Nat.add_div_right _ hT

/-- Witness for C4: the range containment at the accepted configuration
(100, 103) and the sample value 5. -/
theorem getRandomDelay_range_modBias_witness :
    100 ≤ getRandomDelay 100 103 5 ∧ getRandomDelay 100 103 5 < 103 :=
  (getRandomDelay_range_modBias 100 103 (by norm_num) (by norm_num) (by norm_num)).1 5

/-- Counterexample to the uniformity part of C4: with the validated
configuration (min, max) = (100, 103) the range is 3, which does not divide
2^32; of the 2^32 equally likely esp_random() values, 1431655766 map to the
dwell 100 but only 1431655765 map to the dwell 101, so the values in
[min, max) are not equally likely. -/
theorem getRandomDelay_uniformity_counterexample :
    ((Finset.range (2 ^ 32)).filter (fun r => getRandomDelay 100 103 r = 100)).card =
      1431655766 ∧
    ((Finset.range (2 ^ 32)).filter (fun r => getRandomDelay 100 103 r = 101)).card =
      1431655765 ∧
    ((Finset.range (2 ^ 32)).filter (fun r => getRandomDelay 100 103 r = 100)).card ≠
      ((Finset.range (2 ^ 32)).filter (fun r => getRandomDelay 100 103 r = 101)).card := by
  have hA := cnt_eq 100 103 100 (by norm_num) (by norm_num) (by norm_num) (by norm_num)
    (by norm_num)
  have hB := cnt_eq 100 103 101 (by norm_num) (by norm_num) (by norm_num) (by norm_num)
    (by norm_num)
  rw [show ((103 : Int) - 100).toNat = 3 from rfl, show ((100 : Int) - 100).toNat = 0 from rfl]
    at hA
  rw [show ((103 : Int) - 100).toNat = 3 from rfl, show ((101 : Int) - 100).toNat = 1 from rfl]
    at hB
  have eA : (2 ^ 32 + (3 - 1) - 0) / 3 = 1431655766 := by norm_num
  have eB : (2 ^ 32 + (3 - 1) - 1) / 3 = 1431655765 := by norm_num
  rw [eA] at hA
  rw [eB] at hB
  refine ⟨hA, hB, ?_⟩
  rw [hA, hB]
  norm_num
